import Mathlib

/-!
Shallow embedding of the `email-agent` repository: an email-processing
workflow (`src/agent.py`) built from six stages over a shared state record
(`src/state.py`), with domain models from `src/models.py` and mock
collaborators from `src/services/mock_services.py`.

The two language-model calls are embedded as oracle functions supplied to
the agent: the composite of prompt formatting, `llm.invoke` and output
parsing is a function of exactly the data that enters the prompt, returning
`Except String _` (`.error e` models any exception raised inside the
`try` block, with `e` the exception text).

Timestamps are modelled at minute resolution as a day index plus a
minute-of-day; the mock calendar only ever manipulates whole days and
hour/minute fields, so nothing finer is observable.
-/

namespace EmailAgentRepo

/-- Minute-resolution timestamp: `day` counts calendar days, `minute` is the
minute of that day. `datetime + timedelta(days=d)` adds to `day`;
`.replace(hour=h, minute=m, second=0, microsecond=0)` replaces `minute`. -/
structure DateTime where
  day : Nat
  minute : Nat
deriving DecidableEq

/-- Total minutes, the linear order used to compare timestamps. -/
def DateTime.toMinutes (t : DateTime) : Nat :=
  t.day * 1440 + t.minute

/-- Mirrors `models.EmailUrgency`. -/
inductive EmailUrgency
  | high
  | medium
  | low
deriving DecidableEq

/-- The `.value` string of an `EmailUrgency` member. -/
def EmailUrgency.value : EmailUrgency → String
  | .high => "high"
  | .medium => "medium"
  | .low => "low"

/-- Mirrors `models.EmailIntent`. -/
inductive EmailIntent
  | meeting_request
  | support_question
  | information_request
  | spam
  | newsletter
  | urgent_business
  | follow_up
deriving DecidableEq

/-- The `.value` string of an `EmailIntent` member. -/
def EmailIntent.value : EmailIntent → String
  | .meeting_request => "meeting_request"
  | .support_question => "support_question"
  | .information_request => "information_request"
  | .spam => "spam"
  | .newsletter => "newsletter"
  | .urgent_business => "urgent_business"
  | .follow_up => "follow_up"

/-- Mirrors `models.EmailClassification`. -/
structure EmailClassification where
  intent : EmailIntent
  urgency : EmailUrgency
  requires_response : Bool
  reasoning : String
deriving DecidableEq

/-- Mirrors `models.EmailData`. -/
structure EmailData where
  sender : String
  sender_title : Option String := none
  sender_company : Option String := none
  subject : String
  content : String
  received_at : DateTime
  thread_id : Option String := none
deriving DecidableEq

/-- Mirrors `models.CalendarSlot`. -/
structure CalendarSlot where
  start_time : DateTime
  end_time : DateTime
  duration_minutes : Nat
deriving DecidableEq

/-- Mirrors `models.ResponseDraft` (with the pydantic field defaults). -/
structure ResponseDraft where
  subject : String
  content : String
  tone : String
  includes_meeting_times : Bool := false
  proposed_times : List CalendarSlot := []
deriving DecidableEq

/-- The sender-context dictionaries of `MockGmailService`: the keys that the
mock contacts carry, with `title`/`company` optional because the default
context for unknown senders omits them. -/
structure SenderContext where
  name : String
  title : Option String := none
  company : Option String := none
  importance : String
  relationship : String
deriving DecidableEq

/-- Mirrors `MockGmailService.get_sender_context`: fixed contacts for two known
addresses, default context (`importance=medium`, `relationship=unknown`)
otherwise. -/
def get_sender_context (email_address : String) : SenderContext :=
  if email_address = "ceo@company.com" then
    { name := "CEO"
      title := some "Chief Executive Officer"
      company := some "Important Corp"
      importance := "high"
      relationship := "key_stakeholder" }
  else if email_address = "support@customer.com" then
    { name := "Support Team"
      title := some "Customer Support"
      company := some "Customer Corp"
      importance := "medium"
      relationship := "customer" }
  else
    { name := email_address
      importance := "medium"
      relationship := "unknown" }

/-- The two fixed daily slots (09:00-10:00 and 14:00-15:00) that
`MockCalendarService.get_availability` appends for the calendar day
`day` days after `now`. -/
def day_slots (now : DateTime) (day : Nat) : List CalendarSlot :=
  [ { start_time := { day := now.day + day, minute := 9 * 60 }
      end_time := { day := now.day + day, minute := 10 * 60 }
      duration_minutes := 60 }
  , { start_time := { day := now.day + day, minute := 14 * 60 }
      end_time := { day := now.day + day, minute := 15 * 60 }
      duration_minutes := 60 } ]

/-- Mirrors `MockCalendarService.get_availability`: two slots per day for the next
`days_ahead` days (`for day in range(1, days_ahead + 1)`), truncated to the
first 5 (`slots[:5]`). `now` is the `datetime.now()` observed at the call. -/
def get_availability (now : DateTime) (days_ahead : Nat := 7) : List CalendarSlot :=
  ((List.range' 1 days_ahead).flatMap (day_slots now)).take 5

/-- The `langchain` messages as they appear in the state's audit log. -/
inductive Message
  | human (content : String)
  | ai (content : String)
deriving DecidableEq

/-- Mirrors `state.EmailAgentState` (the `TypedDict` threaded through the graph). -/
structure EmailAgentState where
  email : EmailData
  sender_context : Option SenderContext
  classification : Option EmailClassification
  calendar_availability : Option (List CalendarSlot)
  response_draft : Option ResponseDraft
  final_response : Option String
  should_send : Bool
  messages : List Message
  error : Option String
deriving DecidableEq

/-- The agent's external collaborators. `classify_llm` is the composite of
formatting `CLASSIFICATION_PROMPT`, `self.llm.invoke` and
`self.classification_parser.parse`, as a function of the data entering the
prompt (the email and the sender context); `draft_llm` likewise for
`RESPONSE_PROMPT` (email, classification, sender context, availability
slots). `now` is the clock reading the calendar service uses. -/
structure EmailAgent where
  classify_llm : EmailData → SenderContext → Except String EmailClassification
  draft_llm : EmailData → EmailClassification → SenderContext → List CalendarSlot →
    Except String ResponseDraft
  now : DateTime

/-- The fallback classification installed by `_classify_email` on failure. -/
def fallback_classification : EmailClassification :=
  { intent := .information_request
    urgency := .medium
    requires_response := true
    reasoning := "Failed to classify, using default" }

/-- The fallback draft installed by `_draft_response` on failure. -/
def fallback_draft (subject : String) : ResponseDraft :=
  { subject := "Re: " ++ subject
    content := "Thank you for your email. I'll review this and get back to you soon."
    tone := "professional" }

/-- Mirrors `EmailAgent._enrich_sender_context`. -/
def enrich_sender_context (state : EmailAgentState) : EmailAgentState :=
  let email := state.email
  let sender_context := get_sender_context email.sender
  { state with
      sender_context := some sender_context
      messages := state.messages ++
        [.human ("Enriched sender context for " ++ email.sender)] }

/-- Mirrors `EmailAgent._classify_email`. The `none` branch is unreachable in the
workflow (`enrich_sender` always runs first and sets the context). -/
def classify_email (A : EmailAgent) (state : EmailAgentState) : EmailAgentState :=
  match state.sender_context with
  | none => state
  | some sender_context =>
    match A.classify_llm state.email sender_context with
    | .ok classification =>
        { state with
            classification := some classification
            messages := state.messages ++
              [.ai ("Classified email: " ++ classification.intent.value ++ ", " ++
                classification.urgency.value)] }
    | .error e =>
        { state with
            error := some ("Classification failed: " ++ e)
            classification := some fallback_classification }

/-- Mirrors `EmailAgent._check_calendar_availability`. The `none` branch is
unreachable (`classify_email` always sets a classification). -/
def check_calendar_availability (A : EmailAgent) (state : EmailAgentState) :
    EmailAgentState :=
  match state.classification with
  | none => state
  | some classification =>
    if classification.intent = EmailIntent.meeting_request then
      let availability := get_availability A.now
      { state with
          calendar_availability := some availability
          messages := state.messages ++
            [.human ("Retrieved " ++ toString availability.length ++
              " available time slots")] }
    else state

/-- Mirrors `EmailAgent._draft_response`. `state.get("calendar_availability", [])`
yields `None` or a list; both render to the same prompt text when no slots
exist, so the oracle receives `getD []`. The wildcard branch is unreachable
(enrich and classify always precede). -/
def draft_response (A : EmailAgent) (state : EmailAgentState) : EmailAgentState :=
  match state.sender_context, state.classification with
  | some sender_context, some classification =>
    let email := state.email
    let calendar_availability := state.calendar_availability.getD []
    match A.draft_llm email classification sender_context calendar_availability with
    | .ok draft =>
        { state with
            response_draft := some draft
            messages := state.messages ++
              [.ai ("Drafted response with tone: " ++ draft.tone)] }
    | .error e =>
        { state with
            error := some ("Response drafting failed: " ++ e)
            response_draft := some (fallback_draft email.subject) }
  | _, _ => state

/-- Mirrors `EmailAgent._human_review`: auto-approval. The `none` branch is
unreachable (`draft_response` always sets a draft). -/
def human_review (state : EmailAgentState) : EmailAgentState :=
  match state.response_draft with
  | none => state
  | some draft =>
    { state with
        should_send := true
        final_response := some draft.content
        messages := state.messages ++
          [.human "Email draft presented for human review"] }

/-- Mirrors `EmailAgent._send_email`: side effect plus an audit-log entry. -/
def send_email (state : EmailAgentState) : EmailAgentState :=
  { state with messages := state.messages ++ [.ai "Email sent successfully"] }

/-- Mirrors `EmailAgent._should_respond` (conditional edge after `classify_email`).
The `none` branch is unreachable in the workflow. -/
def should_respond (state : EmailAgentState) : String :=
  match state.classification with
  | none => "ignore"
  | some classification =>
    if !classification.requires_response then "ignore"
    else if classification.intent ∈ [EmailIntent.spam, EmailIntent.newsletter] then
      "ignore"
    else "respond"

/-- Mirrors `EmailAgent._needs_calendar` (conditional edge after `check_calendar`;
both labels route to `draft_response`). -/
def needs_calendar (state : EmailAgentState) : String :=
  match state.classification with
  | none => "no_calendar"
  | some classification =>
    if classification.intent = EmailIntent.meeting_request then "calendar_needed"
    else "no_calendar"

/-- Mirrors `EmailAgent._human_approval` (conditional edge after `human_review`). -/
def human_approval (state : EmailAgentState) : String :=
  if state.should_send then "approved" else "rejected"

/-- The fresh state built at the top of `process_email`. -/
def initial_state (email : EmailData) : EmailAgentState :=
  { email := email
    sender_context := none
    classification := none
    calendar_availability := none
    response_draft := none
    final_response := none
    should_send := false
    messages := []
    error := none }

/-- The compiled graph of `_build_graph`, run to completion on one state:
entry `enrich_sender`, then `classify_email`; conditional edge
`_should_respond` to `check_calendar` or END; `_needs_calendar` routes both
labels to `draft_response`; then `human_review`; conditional edge
`_human_approval` to `send_email` or END. Returns the final state together
with the list of executed node names. -/
def run_workflow (A : EmailAgent) (email : EmailData) : EmailAgentState × List String :=
  let s1 := enrich_sender_context (initial_state email)
  let s2 := classify_email A s1
  if should_respond s2 = "respond" then
    let s3 := check_calendar_availability A s2
    let s4 := draft_response A s3
    let s5 := human_review s4
    if human_approval s5 = "approved" then
      (send_email s5,
        ["enrich_sender", "classify_email", "check_calendar", "draft_response",
          "human_review", "send_email"])
    else
      (s5,
        ["enrich_sender", "classify_email", "check_calendar", "draft_response",
          "human_review"])
  else
    (s2, ["enrich_sender", "classify_email"])

/-- Mirrors `EmailAgent.process_email`: build the initial state, run the graph,
return the final state. -/
def process_email (A : EmailAgent) (email : EmailData) : EmailAgentState :=
  (run_workflow A email).1

/-- The state after the `classify_email` node (the first two stages of every
run). -/
def after_classify (A : EmailAgent) (email : EmailData) : EmailAgentState :=
  classify_email A (enrich_sender_context (initial_state email))

/-- The state after the `check_calendar` node on the respond branch. -/
def after_calendar (A : EmailAgent) (email : EmailData) : EmailAgentState :=
  check_calendar_availability A (after_classify A email)

/-- The state after the `draft_response` node on the respond branch. -/
def after_draft (A : EmailAgent) (email : EmailData) : EmailAgentState :=
  draft_response A (after_calendar A email)

/-- The state after the `human_review` node on the respond branch. -/
def after_review (A : EmailAgent) (email : EmailData) : EmailAgentState :=
  human_review (after_draft A email)

theorem run_workflow_def (A : EmailAgent) (email : EmailData) :
    run_workflow A email =
      if should_respond (after_classify A email) = "respond" then
        if human_approval (after_review A email) = "approved" then
          (send_email (after_review A email),
            ["enrich_sender", "classify_email", "check_calendar", "draft_response",
              "human_review", "send_email"])
        else
          (after_review A email,
            ["enrich_sender", "classify_email", "check_calendar", "draft_response",
              "human_review"])
      else (after_classify A email, ["enrich_sender", "classify_email"]) := rfl

theorem after_classify_spec (A : EmailAgent) (email : EmailData) :
    after_classify A email =
      match A.classify_llm email (get_sender_context email.sender) with
      | .ok c =>
        { email := email
          sender_context := some (get_sender_context email.sender)
          classification := some c
          calendar_availability := none
          response_draft := none
          final_response := none
          should_send := false
          messages := [.human ("Enriched sender context for " ++ email.sender),
            .ai ("Classified email: " ++ c.intent.value ++ ", " ++ c.urgency.value)]
          error := none }
      | .error e =>
        { email := email
          sender_context := some (get_sender_context email.sender)
          classification := some fallback_classification
          calendar_availability := none
          response_draft := none
          final_response := none
          should_send := false
          messages := [.human ("Enriched sender context for " ++ email.sender)]
          error := some ("Classification failed: " ++ e) } := by
  cases h : A.classify_llm email (get_sender_context email.sender) <;>
    simp [after_classify, classify_email, enrich_sender_context, initial_state, h]

theorem after_classify_fields (A : EmailAgent) (email : EmailData) :
    (after_classify A email).email = email ∧
    (after_classify A email).sender_context = some (get_sender_context email.sender) ∧
    (after_classify A email).calendar_availability = none ∧
    (after_classify A email).response_draft = none ∧
    (after_classify A email).final_response = none ∧
    (after_classify A email).should_send = false := by
  rw [after_classify_spec]
  cases A.classify_llm email (get_sender_context email.sender) <;>
    exact ⟨rfl, rfl, rfl, rfl, rfl, rfl⟩

theorem after_classify_classification (A : EmailAgent) (email : EmailData) :
    ∃ cl, (after_classify A email).classification = some cl := by
  rw [after_classify_spec]
  cases A.classify_llm email (get_sender_context email.sender) <;> exact ⟨_, rfl⟩

theorem should_respond_eq (s : EmailAgentState) (cl : EmailClassification)
    (h : s.classification = some cl) :
    should_respond s =
      if cl.requires_response = false ∨ cl.intent = EmailIntent.spam ∨
          cl.intent = EmailIntent.newsletter
      then "ignore" else "respond" := by
  simp only [should_respond, h]
  by_cases h1 : cl.requires_response <;>
    by_cases h2 : cl.intent = EmailIntent.spam <;>
      by_cases h3 : cl.intent = EmailIntent.newsletter <;>
        simp [h1, h2, h3]

theorem check_calendar_preserves (A : EmailAgent) (s : EmailAgentState) :
    (check_calendar_availability A s).email = s.email ∧
    (check_calendar_availability A s).sender_context = s.sender_context ∧
    (check_calendar_availability A s).classification = s.classification ∧
    (check_calendar_availability A s).response_draft = s.response_draft ∧
    (check_calendar_availability A s).final_response = s.final_response ∧
    (check_calendar_availability A s).should_send = s.should_send ∧
    (check_calendar_availability A s).error = s.error := by
  cases h : s.classification with
  | none => simp [check_calendar_availability, h]
  | some cl =>
    by_cases hi : cl.intent = EmailIntent.meeting_request <;>
      simp [check_calendar_availability, h, hi]

theorem check_calendar_calendar (A : EmailAgent) (s : EmailAgentState)
    (cl : EmailClassification) (h : s.classification = some cl) :
    (check_calendar_availability A s).calendar_availability =
      if cl.intent = EmailIntent.meeting_request then some (get_availability A.now)
      else s.calendar_availability := by
  by_cases hi : cl.intent = EmailIntent.meeting_request <;>
    simp [check_calendar_availability, h, hi]

theorem draft_response_preserves (A : EmailAgent) (s : EmailAgentState) :
    (draft_response A s).email = s.email ∧
    (draft_response A s).sender_context = s.sender_context ∧
    (draft_response A s).classification = s.classification ∧
    (draft_response A s).calendar_availability = s.calendar_availability ∧
    (draft_response A s).final_response = s.final_response ∧
    (draft_response A s).should_send = s.should_send := by
  cases hctx : s.sender_context with
  | none => simp [draft_response, hctx]
  | some ctx =>
    cases hcl : s.classification with
    | none => simp [draft_response, hctx, hcl]
    | some cl =>
      cases hd : A.draft_llm s.email cl ctx (s.calendar_availability.getD []) <;>
        simp [draft_response, hctx, hcl, hd]

theorem draft_response_draft (A : EmailAgent) (s : EmailAgentState)
    (ctx : SenderContext) (cl : EmailClassification)
    (hctx : s.sender_context = some ctx) (hcl : s.classification = some cl) :
    (draft_response A s).response_draft =
      some (match A.draft_llm s.email cl ctx (s.calendar_availability.getD []) with
        | .ok d => d
        | .error _ => fallback_draft s.email.subject) := by
  cases hd : A.draft_llm s.email cl ctx (s.calendar_availability.getD []) <;>
    simp [draft_response, hctx, hcl, hd]

theorem draft_response_error (A : EmailAgent) (s : EmailAgentState)
    (ctx : SenderContext) (cl : EmailClassification) (e : String)
    (hctx : s.sender_context = some ctx) (hcl : s.classification = some cl)
    (herr : A.draft_llm s.email cl ctx (s.calendar_availability.getD []) = .error e) :
    (draft_response A s).error = some ("Response drafting failed: " ++ e) ∧
    (draft_response A s).response_draft = some (fallback_draft s.email.subject) := by
  simp [draft_response, hctx, hcl, herr]

theorem human_review_spec (s : EmailAgentState) (draft : ResponseDraft)
    (h : s.response_draft = some draft) :
    human_review s =
      { s with
          should_send := true
          final_response := some draft.content
          messages := s.messages ++ [.human "Email draft presented for human review"] } := by
  simp [human_review, h]

theorem human_review_preserves (s : EmailAgentState) :
    (human_review s).email = s.email ∧
    (human_review s).sender_context = s.sender_context ∧
    (human_review s).classification = s.classification ∧
    (human_review s).calendar_availability = s.calendar_availability ∧
    (human_review s).response_draft = s.response_draft ∧
    (human_review s).error = s.error := by
  cases h : s.response_draft <;> simp [human_review, h]

theorem check_calendar_skip (A : EmailAgent) (s : EmailAgentState)
    (cl : EmailClassification) (h : s.classification = some cl)
    (hi : cl.intent ≠ EmailIntent.meeting_request) :
    check_calendar_availability A s = s := by
  simp [check_calendar_availability, h, hi]

theorem after_calendar_def (A : EmailAgent) (email : EmailData) :
    after_calendar A email = check_calendar_availability A (after_classify A email) := rfl

theorem after_draft_def (A : EmailAgent) (email : EmailData) :
    after_draft A email = draft_response A (after_calendar A email) := rfl

theorem after_review_def (A : EmailAgent) (email : EmailData) :
    after_review A email = human_review (after_draft A email) := rfl

theorem process_email_def (A : EmailAgent) (email : EmailData) :
    process_email A email =
      if should_respond (after_classify A email) = "respond" then
        if human_approval (after_review A email) = "approved" then
          send_email (after_review A email)
        else after_review A email
      else after_classify A email := by
  show (run_workflow A email).1 = _
  rw [run_workflow_def]
  split
  · split <;> rfl
  · rfl

theorem send_email_preserves (s : EmailAgentState) :
    (send_email s).email = s.email ∧
    (send_email s).sender_context = s.sender_context ∧
    (send_email s).classification = s.classification ∧
    (send_email s).calendar_availability = s.calendar_availability ∧
    (send_email s).response_draft = s.response_draft ∧
    (send_email s).final_response = s.final_response ∧
    (send_email s).should_send = s.should_send ∧
    (send_email s).error = s.error :=
  ⟨rfl, rfl, rfl, rfl, rfl, rfl, rfl, rfl⟩

theorem length_flatMap_day_slots (now : DateTime) (a n : Nat) :
    ((List.range' a n).flatMap (day_slots now)).length = 2 * n := by
  induction n generalizing a with
  | zero => rfl
  | succ n ih =>
    rw [List.range'_succ, List.flatMap_cons, List.length_append, ih]
    simp [day_slots]
    omega

theorem get_availability_length (now : DateTime) (days_ahead : Nat) :
    (get_availability now days_ahead).length = min (2 * days_ahead) 5 := by
  rw [get_availability, List.length_take, length_flatMap_day_slots]
  omega

theorem day_slots_props (now : DateTime) (day : Nat) (slot : CalendarSlot)
    (h : slot ∈ day_slots now day) :
    slot.start_time.day = now.day + day ∧
    slot.end_time.day = now.day + day ∧
    (slot.start_time.minute = 540 ∧ slot.end_time.minute = 600 ∨
      slot.start_time.minute = 840 ∧ slot.end_time.minute = 900) ∧
    slot.duration_minutes = 60 := by
  simp [day_slots] at h
  rcases h with h | h <;> subst h <;> simp

theorem mem_flatMap_day_slots (now : DateTime) (slot : CalendarSlot) (a n : Nat)
    (h : slot ∈ (List.range' a n).flatMap (day_slots now)) :
    ∃ day, a ≤ day ∧ day < a + n ∧ slot ∈ day_slots now day := by
  rw [List.mem_flatMap] at h
  obtain ⟨day, hday, hslot⟩ := h
  rw [List.mem_range'_1] at hday
  exact ⟨day, hday.1, hday.2, hslot⟩

theorem pairwise_flatMap_day_slots (now : DateTime) (a n : Nat) :
    ((List.range' a n).flatMap (day_slots now)).Pairwise
      (fun s t => s.start_time.toMinutes < t.start_time.toMinutes) := by
  induction n generalizing a with
  | zero => simp
  | succ n ih =>
    rw [List.range'_succ, List.flatMap_cons]
    rw [List.pairwise_append]
    refine ⟨?_, ih (a + 1), ?_⟩
    · simp [day_slots, DateTime.toMinutes]
    · intro x hx y hy
      obtain ⟨hxd, -, hxm, -⟩ := day_slots_props now a x hx
      obtain ⟨day, hd1, -, hyd⟩ := mem_flatMap_day_slots now y (a + 1) n hy
      obtain ⟨hyday, -, hym, -⟩ := day_slots_props now day y hyd
      simp only [DateTime.toMinutes, hxd, hyday]
      rcases hxm with ⟨hx1, -⟩ | ⟨hx1, -⟩ <;> rcases hym with ⟨hy1, -⟩ | ⟨hy1, -⟩ <;>
        rw [hx1, hy1] <;> omega

theorem get_availability_pairwise (now : DateTime) (days_ahead : Nat) :
    (get_availability now days_ahead).Pairwise
      (fun s t => s.start_time.toMinutes < t.start_time.toMinutes) :=
  (pairwise_flatMap_day_slots now 1 days_ahead).sublist (List.take_sublist 5 _)

theorem get_availability_slot_props (now : DateTime) (days_ahead : Nat)
    (slot : CalendarSlot) (h : slot ∈ get_availability now days_ahead) :
    slot.start_time.toMinutes < slot.end_time.toMinutes ∧
    slot.duration_minutes = slot.end_time.toMinutes - slot.start_time.toMinutes := by
  rw [get_availability] at h
  have hmem := List.mem_of_mem_take h
  obtain ⟨day, -, -, hslot⟩ := mem_flatMap_day_slots now slot 1 days_ahead hmem
  obtain ⟨hsd, hed, hm, hdur⟩ := day_slots_props now day slot hslot
  simp only [DateTime.toMinutes, hsd, hed, hdur]
  rcases hm with ⟨h1, h2⟩ | ⟨h1, h2⟩ <;> rw [h1, h2] <;> omega

theorem string_append_ne_empty (s t : String) (h : 0 < s.length) : s ++ t ≠ "" := by
  intro he
  have hl := congrArg String.length he
  rw [String.length_append] at hl
  have h0 : ("" : String).length = 0 := rfl
  omega

theorem process_email_calendar (A : EmailAgent) (email : EmailData)
    (cl : EmailClassification)
    (hcl : (after_classify A email).classification = some cl) :
    (process_email A email).calendar_availability =
      if should_respond (after_classify A email) = "respond" then
        (if cl.intent = EmailIntent.meeting_request then some (get_availability A.now)
         else none)
      else none := by
  rw [process_email_def]
  by_cases hresp : should_respond (after_classify A email) = "respond"
  · rw [if_pos hresp, if_pos hresp]
    have hc : (after_calendar A email).calendar_availability =
        if cl.intent = EmailIntent.meeting_request then some (get_availability A.now)
        else none := by
      rw [after_calendar_def, check_calendar_calendar A _ cl hcl,
        (after_classify_fields A email).2.2.1]
    by_cases happ : human_approval (after_review A email) = "approved"
    · rw [if_pos happ, (send_email_preserves _).2.2.2.1, after_review_def,
        (human_review_preserves _).2.2.2.1, after_draft_def,
        (draft_response_preserves _ _).2.2.2.1]
      exact hc
    · rw [if_neg happ, after_review_def, (human_review_preserves _).2.2.2.1,
        after_draft_def, (draft_response_preserves _ _).2.2.2.1]
      exact hc
  · rw [if_neg hresp, if_neg hresp, (after_classify_fields A email).2.2.1]

/-- Sample email used to instantiate the universally quantified theorems. -/
def sample_email : EmailData :=
  { sender := "alice@example.com"
    subject := "Hello"
    content := "Hi there"
    received_at := ⟨10, 0⟩ }

/-- A meeting-request classification as the model might return it. -/
def sample_meeting_classification : EmailClassification :=
  { intent := .meeting_request
    urgency := .high
    requires_response := true
    reasoning := "asks for a meeting" }

/-- A spam classification as the model might return it. -/
def sample_spam_classification : EmailClassification :=
  { intent := .spam
    urgency := .low
    requires_response := true
    reasoning := "promotional" }

/-- A draft as the model might return it. -/
def sample_draft : ResponseDraft :=
  { subject := "Re: Hello"
    content := "Sounds good"
    tone := "professional"
    includes_meeting_times := true }

/-- A deterministic agent whose model calls always succeed with the given
outputs. -/
def ok_agent (cl : EmailClassification) (d : ResponseDraft) : EmailAgent :=
  { classify_llm := fun _ _ => .ok cl
    draft_llm := fun _ _ _ _ => .ok d
    now := ⟨0, 0⟩ }

/-- A deterministic agent whose model calls always raise. -/
def failing_agent : EmailAgent :=
  { classify_llm := fun _ _ => .error "model unavailable"
    draft_llm := fun _ _ _ _ => .error "model unavailable"
    now := ⟨0, 0⟩ }

/-- C1: for every email whose classification has `requires_response = false`
or intent spam/newsletter, the workflow stops right after the classify
stage: the trace is exactly `[enrich_sender, classify_email]`, the final
state has no response draft and `should_send = false`, and `send_email` is
never executed; for every other classification the workflow proceeds to
the `check_calendar` stage. -/
theorem C1_classify_routing (A : EmailAgent) (email : EmailData)
    (cl : EmailClassification)
    (hcl : (after_classify A email).classification = some cl) :
    (cl.requires_response = false ∨ cl.intent = EmailIntent.spam ∨
        cl.intent = EmailIntent.newsletter →
      (run_workflow A email).2 = ["enrich_sender", "classify_email"] ∧
      (process_email A email).response_draft = none ∧
      (process_email A email).should_send = false ∧
      "send_email" ∉ (run_workflow A email).2) ∧
    (¬(cl.requires_response = false ∨ cl.intent = EmailIntent.spam ∨
        cl.intent = EmailIntent.newsletter) →
      "check_calendar" ∈ (run_workflow A email).2) := by
  have hsr := should_respond_eq _ cl hcl
  constructor
  · intro hcond
    have hig : should_respond (after_classify A email) ≠ "respond" := by
      rw [hsr, if_pos hcond]
      decide
    have hrw : run_workflow A email =
        (after_classify A email, ["enrich_sender", "classify_email"]) := by
      rw [run_workflow_def, if_neg hig]
    obtain ⟨-, -, -, hrd, -, hss⟩ := after_classify_fields A email
    refine ⟨by rw [hrw], ?_, ?_, ?_⟩
    · show (run_workflow A email).1.response_draft = none
      rw [hrw]
      exact hrd
    · show (run_workflow A email).1.should_send = false
      rw [hrw]
      exact hss
    · rw [hrw]
      show "send_email" ∉ ["enrich_sender", "classify_email"]
      decide
  · intro hcond
    have hresp : should_respond (after_classify A email) = "respond" := by
      rw [hsr, if_neg hcond]
    rw [run_workflow_def, if_pos hresp]
    split
    · show "check_calendar" ∈ ["enrich_sender", "classify_email", "check_calendar",
        "draft_response", "human_review", "send_email"]
      decide
    · show "check_calendar" ∈ ["enrich_sender", "classify_email", "check_calendar",
        "draft_response", "human_review"]
      decide

theorem C1_classify_routing_witness :
    ((after_classify (ok_agent sample_spam_classification sample_draft)
        sample_email).classification = some sample_spam_classification) ∧
    ((run_workflow (ok_agent sample_spam_classification sample_draft) sample_email).2 =
        ["enrich_sender", "classify_email"] ∧
      (process_email (ok_agent sample_spam_classification sample_draft)
        sample_email).response_draft = none ∧
      (process_email (ok_agent sample_spam_classification sample_draft)
        sample_email).should_send = false ∧
      "send_email" ∉
        (run_workflow (ok_agent sample_spam_classification sample_draft) sample_email).2) :=
  ⟨rfl,
    (C1_classify_routing (ok_agent sample_spam_classification sample_draft)
        sample_email sample_spam_classification rfl).1 (Or.inr (Or.inl rfl))⟩

/-- C2: every meeting-request email that reaches the calendar check ends
with a non-empty availability list of length at most 5; for every other
intent the availability stays `none` in the final state. -/
theorem C2_calendar_population (A : EmailAgent) (email : EmailData)
    (cl : EmailClassification)
    (hcl : (after_classify A email).classification = some cl) :
    (cl.intent = EmailIntent.meeting_request →
        "check_calendar" ∈ (run_workflow A email).2 →
      ∃ l, (process_email A email).calendar_availability = some l ∧
        l ≠ [] ∧ l.length ≤ 5) ∧
    (cl.intent ≠ EmailIntent.meeting_request →
      (process_email A email).calendar_availability = none) := by
  have hcal := process_email_calendar A email cl hcl
  constructor
  · intro hmeet hreach
    have hresp : should_respond (after_classify A email) = "respond" := by
      by_contra hno
      rw [run_workflow_def, if_neg hno] at hreach
      have hnm : "check_calendar" ∉ (["enrich_sender", "classify_email"] : List String) := by
        decide
      exact hnm hreach
    rw [if_pos hresp, if_pos hmeet] at hcal
    refine ⟨get_availability A.now, hcal, ?_, ?_⟩
    · intro hnil
      have hlen := get_availability_length A.now 7
      rw [hnil] at hlen
      simp only [List.length_nil] at hlen
      omega
    · rw [get_availability_length]
      omega
  · intro hne
    rw [hcal, if_neg hne]
    exact ite_self none

theorem C2_calendar_population_witness :
    ((after_classify (ok_agent sample_meeting_classification sample_draft)
        sample_email).classification = some sample_meeting_classification) ∧
    sample_meeting_classification.intent = EmailIntent.meeting_request ∧
    "check_calendar" ∈
      (run_workflow (ok_agent sample_meeting_classification sample_draft) sample_email).2 ∧
    (∃ l, (process_email (ok_agent sample_meeting_classification sample_draft)
        sample_email).calendar_availability = some l ∧ l ≠ [] ∧ l.length ≤ 5) :=
  ⟨rfl, rfl, by decide,
    (C2_calendar_population (ok_agent sample_meeting_classification sample_draft)
        sample_email sample_meeting_classification rfl).1 rfl (by decide)⟩

/-- C3: a classify-stage model or parse failure is caught inside the stage:
the error field records a non-empty message, the classification is exactly
the documented fallback, and the workflow continues to the calendar-check
stage instead of aborting. -/
theorem C3_classify_fallback (A : EmailAgent) (email : EmailData) (e : String)
    (herr : A.classify_llm email (get_sender_context email.sender) = .error e) :
    (after_classify A email).error = some ("Classification failed: " ++ e) ∧
    "Classification failed: " ++ e ≠ "" ∧
    (after_classify A email).classification = some fallback_classification ∧
    fallback_classification =
      { intent := .information_request
        urgency := .medium
        requires_response := true
        reasoning := "Failed to classify, using default" } ∧
    should_respond (after_classify A email) = "respond" ∧
    "check_calendar" ∈ (run_workflow A email).2 := by
  have hspec := after_classify_spec A email
  rw [herr] at hspec
  have hcl : (after_classify A email).classification = some fallback_classification := by
    rw [hspec]
  have hsr : should_respond (after_classify A email) = "respond" := by
    rw [should_respond_eq _ _ hcl, if_neg (by decide)]
  refine ⟨by rw [hspec], string_append_ne_empty _ _ (by decide), hcl, rfl, hsr, ?_⟩
  rw [run_workflow_def, if_pos hsr]
  split
  · show "check_calendar" ∈ ["enrich_sender", "classify_email", "check_calendar",
      "draft_response", "human_review", "send_email"]
    decide
  · show "check_calendar" ∈ ["enrich_sender", "classify_email", "check_calendar",
      "draft_response", "human_review"]
    decide

theorem C3_classify_fallback_witness :
    ((after_classify failing_agent sample_email).error =
        some ("Classification failed: " ++ "model unavailable")) ∧
    ("Classification failed: " ++ "model unavailable" ≠ "") ∧
    (after_classify failing_agent sample_email).classification =
      some fallback_classification ∧
    should_respond (after_classify failing_agent sample_email) = "respond" ∧
    "check_calendar" ∈ (run_workflow failing_agent sample_email).2 := by
  obtain ⟨h1, h2, h3, -, h5, h6⟩ :=
    C3_classify_fallback failing_agent sample_email "model unavailable" rfl
  exact ⟨h1, h2, h3, h5, h6⟩

/-- The state passed to `draft_response` in the C4/C5 witnesses: a state as
it looks after enrichment and classification. -/
def sample_state : EmailAgentState :=
  { email := sample_email
    sender_context := some (get_sender_context "alice@example.com")
    classification := some sample_meeting_classification
    calendar_availability := none
    response_draft := none
    final_response := none
    should_send := false
    messages := []
    error := none }

/-- C4: a drafting-stage model or parse failure is caught inside the stage:
the error field records a non-empty message, the response draft is exactly
the fallback draft (`Re:` subject, canned content, professional tone), and
the workflow continues to the review stage (every run that executes
`draft_response` also executes `human_review`). -/
theorem C4_draft_fallback (A : EmailAgent) (s : EmailAgentState)
    (ctx : SenderContext) (cl : EmailClassification) (e : String)
    (hctx : s.sender_context = some ctx) (hcl : s.classification = some cl)
    (herr : A.draft_llm s.email cl ctx (s.calendar_availability.getD []) = .error e) :
    (draft_response A s).error = some ("Response drafting failed: " ++ e) ∧
    "Response drafting failed: " ++ e ≠ "" ∧
    (draft_response A s).response_draft =
      some { subject := "Re: " ++ s.email.subject
             content := "Thank you for your email. I'll review this and get back to you soon."
             tone := "professional" } ∧
    (∀ (A2 : EmailAgent) (email : EmailData),
      "draft_response" ∈ (run_workflow A2 email).2 →
        "human_review" ∈ (run_workflow A2 email).2) := by
  obtain ⟨h1, h2⟩ := draft_response_error A s ctx cl e hctx hcl herr
  refine ⟨h1, string_append_ne_empty _ _ (by decide), by rw [h2]; rfl, ?_⟩
  intro A2 email hmem
  rw [run_workflow_def]
  by_cases hresp : should_respond (after_classify A2 email) = "respond"
  · rw [if_pos hresp]
    split
    · show "human_review" ∈ ["enrich_sender", "classify_email", "check_calendar",
        "draft_response", "human_review", "send_email"]
      decide
    · show "human_review" ∈ ["enrich_sender", "classify_email", "check_calendar",
        "draft_response", "human_review"]
      decide
  · rw [run_workflow_def, if_neg hresp] at hmem
    have hnm : "draft_response" ∉ (["enrich_sender", "classify_email"] : List String) := by
      decide
    exact absurd hmem hnm

theorem C4_draft_fallback_witness :
    ((draft_response failing_agent sample_state).error =
        some ("Response drafting failed: " ++ "model unavailable")) ∧
    ("Response drafting failed: " ++ "model unavailable" ≠ "") ∧
    (draft_response failing_agent sample_state).response_draft =
      some { subject := "Re: " ++ sample_state.email.subject
             content := "Thank you for your email. I'll review this and get back to you soon."
             tone := "professional" } ∧
    (∀ (A2 : EmailAgent) (email : EmailData),
      "draft_response" ∈ (run_workflow A2 email).2 →
        "human_review" ∈ (run_workflow A2 email).2) :=
  C4_draft_fallback failing_agent sample_state
    (get_sender_context "alice@example.com") sample_meeting_classification
    "model unavailable" rfl rfl rfl

/-- C5: the review stage unconditionally approves: it sets `should_send`
to true and copies the draft content into `final_response`, and the routing
after review goes to `send_email` exactly when `should_send` is true. -/
theorem C5_review_auto_approval (s s2 : EmailAgentState) (draft : ResponseDraft)
    (h : s.response_draft = some draft) :
    (human_review s).should_send = true ∧
    (human_review s).final_response = some draft.content ∧
    (human_approval s2 = "approved" ↔ s2.should_send = true) := by
  rw [human_review_spec s draft h]
  refine ⟨rfl, rfl, ?_⟩
  by_cases hs : s2.should_send <;> simp [human_approval, hs]

theorem C5_review_auto_approval_witness :
    sample_state.response_draft = none ∧
    ({ sample_state with response_draft := some sample_draft } :
        EmailAgentState).response_draft = some sample_draft ∧
    (human_review { sample_state with response_draft := some sample_draft }).should_send = true ∧
    (human_review { sample_state with
        response_draft := some sample_draft }).final_response = some sample_draft.content ∧
    (human_approval sample_state = "approved" ↔ sample_state.should_send = true) := by
  obtain ⟨h1, h2, h3⟩ :=
    C5_review_auto_approval { sample_state with response_draft := some sample_draft }
      sample_state sample_draft rfl
  exact ⟨rfl, rfl, h1, h2, h3⟩

/-- C6: for every `days_ahead ≥ 1`, `get_availability` returns a list that
is strictly chronologically ordered by start time, in which every slot ends
after it starts and has `duration_minutes` equal to the span in minutes,
and whose length is `min (2 * days_ahead) 5`. -/
theorem C6_availability_shape (now : DateTime) (days_ahead : Nat)
    (_h : 1 ≤ days_ahead) :
    (get_availability now days_ahead).length = min (2 * days_ahead) 5 ∧
    (get_availability now days_ahead).Pairwise
      (fun s t => s.start_time.toMinutes < t.start_time.toMinutes) ∧
    ∀ slot ∈ get_availability now days_ahead,
      slot.start_time.toMinutes < slot.end_time.toMinutes ∧
      slot.duration_minutes = slot.end_time.toMinutes - slot.start_time.toMinutes :=
  ⟨get_availability_length now days_ahead, get_availability_pairwise now days_ahead,
    fun slot hs => get_availability_slot_props now days_ahead slot hs⟩

theorem C6_availability_shape_witness :
    1 ≤ 7 ∧
    ((get_availability ⟨0, 0⟩ 7).length = min (2 * 7) 5 ∧
      (get_availability ⟨0, 0⟩ 7).Pairwise
        (fun s t => s.start_time.toMinutes < t.start_time.toMinutes) ∧
      ∀ slot ∈ get_availability ⟨0, 0⟩ 7,
        slot.start_time.toMinutes < slot.end_time.toMinutes ∧
        slot.duration_minutes = slot.end_time.toMinutes - slot.start_time.toMinutes) :=
  ⟨by decide, C6_availability_shape ⟨0, 0⟩ 7 (by decide)⟩

/-- C8: `process_email` with fixed deterministic collaborators is a pure
function of the email, so two runs on the same email value produce
identical classification and draft content. -/
theorem C8_idempotent (A : EmailAgent) (e1 e2 : EmailData) (h : e1 = e2) :
    (process_email A e1).classification = (process_email A e2).classification ∧
    (process_email A e1).response_draft = (process_email A e2).response_draft := by
  subst h
  exact ⟨rfl, rfl⟩

/-- C9: when both the classify and the draft stage fail, the final error
field holds exactly the drafting-failure message: the earlier
classification-failure message is overwritten, not appended or kept. -/
theorem C9_error_overwrite (A : EmailAgent) (email : EmailData) (e1 e2 : String)
    (h1 : A.classify_llm email (get_sender_context email.sender) = .error e1)
    (h2 : A.draft_llm email fallback_classification (get_sender_context email.sender) [] =
      .error e2) :
    (after_classify A email).error = some ("Classification failed: " ++ e1) ∧
    (process_email A email).error = some ("Response drafting failed: " ++ e2) := by
  have hspec := after_classify_spec A email
  rw [h1] at hspec
  have hcl : (after_classify A email).classification = some fallback_classification := by
    rw [hspec]
  have hskip : after_calendar A email = after_classify A email :=
    check_calendar_skip A _ fallback_classification hcl (by decide)
  have hctx : (after_classify A email).sender_context =
      some (get_sender_context email.sender) :=
    (after_classify_fields A email).2.1
  have herr : A.draft_llm (after_classify A email).email fallback_classification
      (get_sender_context email.sender)
      ((after_classify A email).calendar_availability.getD []) = .error e2 := by
    rw [(after_classify_fields A email).1, (after_classify_fields A email).2.2.1]
    exact h2
  have hde := draft_response_error A (after_classify A email) _ _ e2 hctx hcl herr
  have hderr : (after_draft A email).error = some ("Response drafting failed: " ++ e2) := by
    rw [after_draft_def, hskip]
    exact hde.1
  have hdrd : (after_draft A email).response_draft =
      some (fallback_draft (after_classify A email).email.subject) := by
    rw [after_draft_def, hskip]
    exact hde.2
  have hresp : should_respond (after_classify A email) = "respond" := by
    rw [should_respond_eq _ _ hcl, if_neg (by decide)]
  have hrev := human_review_spec _ _ hdrd
  have hss : (after_review A email).should_send = true := by
    rw [after_review_def, hrev]
  have happ : human_approval (after_review A email) = "approved" := by
    simp [human_approval, hss]
  refine ⟨by rw [hspec], ?_⟩
  rw [process_email_def, if_pos hresp, if_pos happ,
    (send_email_preserves _).2.2.2.2.2.2.2, after_review_def,
    (human_review_preserves _).2.2.2.2.2]
  exact hderr

theorem C9_error_overwrite_witness :
    ((after_classify failing_agent sample_email).error =
        some ("Classification failed: " ++ "model unavailable")) ∧
    (process_email failing_agent sample_email).error =
      some ("Response drafting failed: " ++ "model unavailable") :=
  C9_error_overwrite failing_agent sample_email "model unavailable"
    "model unavailable" rfl rfl

/-- C10: the rejected branch out of the review stage is unreachable: every
run whose final state carries a response draft also executed the
`send_email` node, and no final state has a draft together with
`should_send = false`. -/
theorem C10_rejected_unreachable (A : EmailAgent) (email : EmailData) :
    ((process_email A email).response_draft ≠ none →
      "send_email" ∈ (run_workflow A email).2) ∧
    ¬((process_email A email).response_draft ≠ none ∧
      (process_email A email).should_send = false) := by
  obtain ⟨cl, hcl⟩ := after_classify_classification A email
  by_cases hresp : should_respond (after_classify A email) = "respond"
  · have hctx3 : (after_calendar A email).sender_context =
        some (get_sender_context email.sender) := by
      rw [after_calendar_def, (check_calendar_preserves A _).2.1,
        (after_classify_fields A email).2.1]
    have hcl3 : (after_calendar A email).classification = some cl := by
      rw [after_calendar_def, (check_calendar_preserves A _).2.2.1, hcl]
    obtain ⟨d, hd⟩ : ∃ d, (after_draft A email).response_draft = some d := by
      rw [after_draft_def, draft_response_draft A _ _ _ hctx3 hcl3]
      exact ⟨_, rfl⟩
    have hrev := human_review_spec _ _ hd
    have hss : (after_review A email).should_send = true := by
      rw [after_review_def, hrev]
    have happ : human_approval (after_review A email) = "approved" := by
      simp [human_approval, hss]
    have hpe : process_email A email = send_email (after_review A email) := by
      rw [process_email_def, if_pos hresp, if_pos happ]
    constructor
    · intro _
      rw [run_workflow_def, if_pos hresp, if_pos happ]
      show "send_email" ∈ ["enrich_sender", "classify_email", "check_calendar",
        "draft_response", "human_review", "send_email"]
      decide
    · rintro ⟨-, hssf⟩
      rw [hpe, (send_email_preserves _).2.2.2.2.2.2.1, hss] at hssf
      exact absurd hssf (by decide)
  · have hpe : process_email A email = after_classify A email := by
      rw [process_email_def, if_neg hresp]
    constructor
    · intro hne
      rw [hpe, (after_classify_fields A email).2.2.2.1] at hne
      exact absurd rfl hne
    · rintro ⟨hne, -⟩
      rw [hpe, (after_classify_fields A email).2.2.2.1] at hne
      exact hne rfl

theorem C10_rejected_unreachable_witness :
    (process_email (ok_agent sample_meeting_classification sample_draft)
        sample_email).response_draft ≠ none ∧
    "send_email" ∈
      (run_workflow (ok_agent sample_meeting_classification sample_draft) sample_email).2 :=
  ⟨by decide,
    (C10_rejected_unreachable (ok_agent sample_meeting_classification sample_draft)
        sample_email).1 (by decide)⟩

/-- Agent used to refute C7: classification succeeds as a meeting request,
drafting always fails, so the fallback draft (whose
`includes_meeting_times` defaults to false) reaches the final state. -/
def c7_agent : EmailAgent :=
  { classify_llm := fun _ _ => .ok sample_meeting_classification
    draft_llm := fun _ _ _ _ => .error "boom"
    now := ⟨0, 0⟩ }

/-- C7 counterexample: a meeting-request email that completes the whole
workflow (send executed) whose final draft is the fallback draft with
`includes_meeting_times = false`, contradicting the claim that the final
draft always has `includes_meeting_times = true`. -/
theorem C7_counterexample :
    (after_classify c7_agent sample_email).classification =
      some sample_meeting_classification ∧
    sample_meeting_classification.intent = EmailIntent.meeting_request ∧
    "send_email" ∈ (run_workflow c7_agent sample_email).2 ∧
    (process_email c7_agent sample_email).response_draft =
      some (fallback_draft sample_email.subject) ∧
    (fallback_draft sample_email.subject).includes_meeting_times = false ∧
    ¬(∀ d, (process_email c7_agent sample_email).response_draft = some d →
        d.includes_meeting_times = true) := by
  refine ⟨rfl, rfl, by decide, by decide, rfl, ?_⟩
  intro hall
  have hd := hall (fallback_draft sample_email.subject) (by decide)
  exact absurd hd (by decide)

/-- C7 amended: for a meeting-request email that completes the workflow the
final draft is exactly what the drafting stage produced — the draft the
model returned on success (its `includes_meeting_times` is not forced to
be true), and on a drafting failure the fallback draft, whose
`includes_meeting_times` is false. -/
theorem C7_amended (A : EmailAgent) (email : EmailData) (cl : EmailClassification)
    (hcl : (after_classify A email).classification = some cl)
    (_hmeet : cl.intent = EmailIntent.meeting_request)
    (hresp : should_respond (after_classify A email) = "respond") :
    (∀ d, A.draft_llm email cl (get_sender_context email.sender)
        ((after_calendar A email).calendar_availability.getD []) = .ok d →
      (process_email A email).response_draft = some d) ∧
    (∀ e, A.draft_llm email cl (get_sender_context email.sender)
        ((after_calendar A email).calendar_availability.getD []) = .error e →
      (process_email A email).response_draft = some (fallback_draft email.subject) ∧
      (fallback_draft email.subject).includes_meeting_times = false) := by
  have hctx3 : (after_calendar A email).sender_context =
      some (get_sender_context email.sender) := by
    rw [after_calendar_def, (check_calendar_preserves A _).2.1,
      (after_classify_fields A email).2.1]
  have hcl3 : (after_calendar A email).classification = some cl := by
    rw [after_calendar_def, (check_calendar_preserves A _).2.2.1, hcl]
  have hemail3 : (after_calendar A email).email = email := by
    rw [after_calendar_def, (check_calendar_preserves A _).1,
      (after_classify_fields A email).1]
  have key : ∀ d, (after_draft A email).response_draft = some d →
      (process_email A email).response_draft = some d := by
    intro d hrd
    have hrev := human_review_spec _ _ hrd
    have hss : (after_review A email).should_send = true := by
      rw [after_review_def, hrev]
    have happ : human_approval (after_review A email) = "approved" := by
      simp [human_approval, hss]
    rw [process_email_def, if_pos hresp, if_pos happ,
      (send_email_preserves _).2.2.2.2.1, after_review_def,
      (human_review_preserves _).2.2.2.2.1]
    exact hrd
  constructor
  · intro d hok
    refine key d ?_
    rw [after_draft_def, draft_response_draft A _ _ _ hctx3 hcl3, hemail3, hok]
  · intro e herr
    refine ⟨key (fallback_draft email.subject) ?_, rfl⟩
    rw [after_draft_def, draft_response_draft A _ _ _ hctx3 hcl3, hemail3, herr]

theorem C7_amended_witness :
    ((after_classify c7_agent sample_email).classification =
        some sample_meeting_classification) ∧
    sample_meeting_classification.intent = EmailIntent.meeting_request ∧
    should_respond (after_classify c7_agent sample_email) = "respond" ∧
    ((process_email c7_agent sample_email).response_draft =
        some (fallback_draft sample_email.subject) ∧
      (fallback_draft sample_email.subject).includes_meeting_times = false) :=
  ⟨rfl, rfl, rfl,
    (C7_amended c7_agent sample_email sample_meeting_classification rfl rfl rfl).2
      "boom" rfl⟩

theorem C8_idempotent_witness :
    (process_email (ok_agent sample_meeting_classification sample_draft)
        sample_email).classification =
      (process_email (ok_agent sample_meeting_classification sample_draft)
        sample_email).classification ∧
    (process_email (ok_agent sample_meeting_classification sample_draft)
        sample_email).response_draft =
      (process_email (ok_agent sample_meeting_classification sample_draft)
        sample_email).response_draft :=
  C8_idempotent (ok_agent sample_meeting_classification sample_draft)
    sample_email sample_email rfl

end EmailAgentRepo
